import Mathlib

/-!
Shallow embedding of the VoiceFlow websocket transcription server
(src/python/src/voiceflow_server/server.py) and proofs about it.

Modelling conventions:
* 16-bit PCM bytes are modelled as a list of naturals (each byte < 256 where
  a bound is needed); normalized samples are rationals (every value k/32768
  with k a 16-bit integer is exact, so rationals are a faithful carrier for
  the float32 values the code produces).
* Python exceptions are modelled with Except: a raising call returns
  .error msg.  A try/except block is a match on that Except.
* The asyncio receive loop of websocket_endpoint is modelled as a step
  function on the per-session state.  An exception that escapes the loop
  body reaches the generic handler (server.py lines 378-383), which emits
  one error event and ends the session; this is the .closed result.
* json.loads is an external library call; its result is modelled as
  Option JVal (none = json.JSONDecodeError, which the code catches).
* The transcription engine (transcriber.transcribe) is an oracle
  List Rat -> Except String String: .ok text on success, .error msg when
  the awaited call raises.
-/

namespace VoiceFlow

/-- Reinterpret two little-endian bytes as a signed 16-bit integer, as
np.frombuffer(data, dtype=np.int16) does for one element. -/
def pcm16ToInt (lo hi : Nat) : Int :=
  let u : Nat := lo + 256 * hi
  if u < 32768 then (u : Int) else (u : Int) - 65536

/-- One normalized sample: the int16 value divided by 32768.0
(server.py line 262). -/
def pcm16Sample (lo hi : Nat) : ℚ :=
  (pcm16ToInt lo hi : ℚ) / 32768

/-- Decode a little-endian 16-bit PCM byte string into normalized samples.
Only reached on even-length input (np.frombuffer raises otherwise, see
AudioBuffer.add_chunk). -/
def decodePCM16 : List Nat → List ℚ
  | lo :: hi :: rest => pcm16Sample lo hi :: decodePCM16 rest
  | _ => []

/-- AudioBuffer (server.py lines 252-280): sample rate, ordered chunk list,
running sample count. -/
structure AudioBuffer where
  sample_rate : Nat
  chunks : List (List ℚ)
  total_samples : Nat
  deriving DecidableEq

/-- A fresh buffer, as AudioBuffer.__init__ builds it (server.py 255-258). -/
def AudioBuffer.new : AudioBuffer :=
  { sample_rate := 16000, chunks := [], total_samples := 0 }

/-- add_chunk (server.py 260-264).  np.frombuffer with dtype int16 raises
ValueError when the byte length is not a multiple of 2; the raise happens
before any mutation, so the error case returns no buffer. -/
def AudioBuffer.add_chunk (b : AudioBuffer) (data : List Nat) :
    Except String AudioBuffer :=
  if data.length % 2 = 0 then
    let audio := decodePCM16 data
    .ok { b with
            chunks := b.chunks ++ [audio],
            total_samples := b.total_samples + audio.length }
  else
    .error "ValueError: buffer size must be a multiple of element size"

/-- get_audio (server.py 266-270): empty array when there are no chunks,
otherwise np.concatenate of the chunks in order. -/
def AudioBuffer.get_audio (b : AudioBuffer) : List ℚ :=
  if b.chunks.isEmpty then [] else b.chunks.flatten

/-- clear (server.py 272-275). -/
def AudioBuffer.clear (b : AudioBuffer) : AudioBuffer :=
  { b with chunks := [], total_samples := 0 }

/-- duration property (server.py 277-280). -/
def AudioBuffer.duration (b : AudioBuffer) : ℚ :=
  (b.total_samples : ℚ) / (b.sample_rate : ℚ)

/-- Fold of add_chunk over a list of byte chunks (a session delivering
several binary frames while recording). -/
def AudioBuffer.add_chunks (b : AudioBuffer) :
    List (List Nat) → Except String AudioBuffer
  | [] => .ok b
  | d :: rest =>
    match b.add_chunk d with
    | .ok b2 => b2.add_chunks rest
    | .error e => .error e

/-- The documented invariant of AudioBuffer: total_samples is the sum of the
chunk lengths (spec section 3; it is a Nat, hence never negative). -/
def AudioBuffer.inv (b : AudioBuffer) : Prop :=
  b.total_samples = (b.chunks.map List.length).sum

/-- JSON values as produced by json.loads. An obj models the resulting dict
(keys already deduplicated by the parser). -/
inductive JVal where
  | null : JVal
  | bool (b : Bool) : JVal
  | num (q : ℚ) : JVal
  | str (s : String) : JVal
  | arr (items : List JVal) : JVal
  | obj (fields : List (String × JVal)) : JVal

/-- dict.get on the parsed object: the value stored under the key, if any. -/
def dictGet : List (String × JVal) → String → Option JVal
  | [], _ => none
  | (k, v) :: rest, key => if k = key then some v else dictGet rest key

/-- data.get("type") (server.py line 340).  Python raises AttributeError when
json.loads returned a non-dict value (list, string, number, bool, null),
because only dicts have a .get method; that exception is NOT
json.JSONDecodeError and so escapes the inner try. -/
def pyGetType : JVal → Except String (Option JVal)
  | .obj fields => .ok (dictGet fields "type")
  | _ => .error "AttributeError: object has no attribute get"

/-- Python msg_type == s where msg_type is dict.get result: true exactly
when the stored value is the string s. -/
def optIsStr (t : Option JVal) (s : String) : Bool :=
  match t with
  | some (.str s2) => s2 == s
  | _ => false

/-- Server-to-client JSON events (spec section 6). -/
inductive Event where
  | ready : Event
  | loading (stage : String) (progress : ℚ) (message : String) : Event
  | final (text : String) : Event
  | error (e : String) : Event
  deriving DecidableEq

/-- The transcription oracle: what `await transcriber.transcribe(audio)`
does on the materialized samples. .error is a raised exception's message. -/
def Engine := List ℚ → Except String String

/-- Per-session state of websocket_endpoint (server.py 301-302). -/
structure Session where
  buffer : AudioBuffer
  is_recording : Bool
  deriving DecidableEq

/-- One inbound websocket message, after transport framing and JSON parsing:
a binary frame carries bytes, a text frame carries the json.loads outcome
(none = JSONDecodeError). -/
inductive Msg where
  | binary (data : List Nat) : Msg
  | text (parsed : Option JVal) : Msg
  | disconnect : Msg

/-- Result of processing one message: either the loop continues with a new
session state having emitted some events, or the session is closed (break on
disconnect, or an exception reached the generic handler, which emits the
listed events best-effort and falls through to the finally block). -/
inductive StepRes where
  | next (s : Session) (events : List Event) : StepRes
  | closed (events : List Event) : StepRes
  deriving DecidableEq

/-- One iteration of the websocket_endpoint receive loop
(server.py 322-374), with the generic exception handler (378-383) applied
to anything the loop body lets escape. -/
def sessionStep (transcriber : Option Engine) (s : Session) (m : Msg) :
    StepRes :=
  match m with
  | .disconnect => .closed []
  | .binary data =>
    if s.is_recording then
      match s.buffer.add_chunk data with
      | .ok b2 => .next { s with buffer := b2 } []
      | .error e => .closed [.error e]
    else
      .next s []
  | .text parsed =>
    match parsed with
    | none => .next s []
    | some data =>
      match pyGetType data with
      | .error e => .closed [.error e]
      | .ok msg_type =>
        if optIsStr msg_type "start" then
          .next { s with is_recording := true, buffer := s.buffer.clear } []
        else if optIsStr msg_type "end" then
          let s1 : Session := { s with is_recording := false }
          let audio := s1.buffer.get_audio
          if 0 < audio.length then
            match transcriber with
            | some engine =>
              match engine audio with
              | .ok text =>
                .next { s1 with buffer := s1.buffer.clear } [.final text]
              | .error e =>
                .next { s1 with buffer := s1.buffer.clear } [.error e]
            | none => .next { s1 with buffer := s1.buffer.clear } [.final ""]
          else
            .next { s1 with buffer := s1.buffer.clear } [.final ""]
        else
          .next s []

/-- The control message the client sends to start an utterance. -/
def startMsg : Msg := .text (some (.obj [("type", JVal.str "start")]))

/-- The control message the client sends to end an utterance. -/
def endMsg : Msg := .text (some (.obj [("type", JVal.str "end")]))

/-- Shared load-barrier state of the Transcriber (server.py 84-92):
model presence, the _loading flag, the _loaded asyncio.Event, the stored
load_error, and the progress snapshot fields. -/
structure Transcriber where
  model : Option Unit
  loading : Bool
  loadedEvt : Bool
  load_error : Option String
  loading_stage : String
  loading_progress : ℚ
  loading_message : String

/-- Transcriber.__init__ (server.py 84-92). -/
def Transcriber.init : Transcriber :=
  { model := none, loading := false, loadedEvt := false, load_error := none,
    loading_stage := "", loading_progress := 0, loading_message := "" }

/-- What one load_model call observed at its (atomic) entry section. -/
inductive EntryRes where
  | done : EntryRes
  | alreadyLoading : EntryRes
  | runner : EntryRes
  deriving DecidableEq

/-- The synchronous prefix of load_model (server.py 112-122): under the
single-threaded asyncio loop nothing interleaves between the checks and the
_loading flag being set, so the prefix is one atomic step.  done = returned
immediately (model already loaded), alreadyLoading = will wait on _loaded,
runner = this call will run the blocking initializer. -/
def load_model_entry (t : Transcriber) : Transcriber × EntryRes :=
  if t.model.isSome then ({ t with loadedEvt := true }, .done)
  else if t.loading then (t, .alreadyLoading)
  else ({ t with loading := true, load_error := none }, .runner)

/-- The completion of load_model after the executor call resolves
(server.py 127-140): try/except stores str(e) and resets model, the finally
block clears _loading and sets the _loaded event. -/
def load_model_finish (t : Transcriber) (outcome : Except String Unit) :
    Transcriber :=
  match outcome with
  | .ok _ => { t with model := some (), loading := false, loadedEvt := true }
  | .error e =>
    { t with load_error := some e, model := none, loading := false,
             loadedEvt := true }

/-- n concurrent load_model calls whose entry sections all run before the
in-flight load completes (the asyncio scheduling of simultaneously created
tasks); returns the resulting state and how many calls became the runner of
the blocking initializer. -/
def runEntries : Transcriber → Nat → Transcriber × Nat
  | t, 0 => (t, 0)
  | t, n + 1 =>
    let p := load_model_entry t
    let q := runEntries p.1 n
    (q.1, (if p.2 = EntryRes.runner then 1 else 0) + q.2)

/-- The outcome a wait_until_ready caller observes once _loaded is set: the
session handler reads transcriber.load_error (server.py 316-317); spec-level
awaitReady resolves with the stored LoadError if there is one. -/
def awaitReadyResult (t : Transcriber) : Except String Unit :=
  match t.load_error with
  | some e => .error e
  | none => .ok ()

/-- The connect phase of websocket_endpoint (server.py 304-321), evaluated
on the transcriber state observed when wait_until_ready resolves: the events
sent before the loop, and whether the session enters the message loop (false
= the handler returned after sending the stored load error). -/
def connectEvents (t : Option Transcriber) : List Event × Bool :=
  match t with
  | none => ([.ready], true)
  | some tr =>
    let pre : List Event :=
      if tr.loading then
        [.loading (if tr.loading_stage = "" then "loading" else tr.loading_stage)
          tr.loading_progress
          (if tr.loading_message = "" then "Loading model..." else tr.loading_message)]
      else []
    match tr.load_error with
    | some e => (pre ++ [.error e], false)
    | none => (pre ++ [.ready], true)

/-- Whether a send attempt succeeded (the try/except around
client.send_json in broadcast_loading_status swallows any exception). -/
def sendOk (r : Except String Unit) : Bool :=
  match r with
  | .ok _ => true
  | .error _ => false

/-- broadcast_loading_status (server.py 32-52) over the registry of
connected clients, with the per-client send outcome as an oracle: each send
is wrapped in try/except, failing clients are collected and removed with
difference_update.  The function is total — no exception propagates to the
caller. -/
def broadcast_loading_status (clients : Finset Nat)
    (send : Nat → Except String Unit) : Finset Nat :=
  if clients = ∅ then clients
  else
    let disconnected := clients.filter (fun c => sendOk (send c) = false)
    clients \ disconnected

/-! Helper lemmas. -/

/-- get_audio is the flattening of the chunk list (the isEmpty guard only
avoids calling np.concatenate on an empty list). -/
theorem AudioBuffer.get_audio_eq_flatten (b : AudioBuffer) :
    b.get_audio = b.chunks.flatten := by
  cases h : b.chunks <;> simp [AudioBuffer.get_audio, h]

/-- Folding add_chunk over even-length byte chunks succeeds and appends the
decoded chunks in order. -/
theorem add_chunks_spec : ∀ (datas : List (List Nat)) (b : AudioBuffer),
    (∀ d ∈ datas, d.length % 2 = 0) →
    b.add_chunks datas = .ok
      { b with chunks := b.chunks ++ datas.map decodePCM16,
               total_samples := b.total_samples +
                 ((datas.map decodePCM16).map List.length).sum }
  | [], b, _ => by simp [AudioBuffer.add_chunks]
  | d :: rest, b, h => by
    have hd : d.length % 2 = 0 := h d (by simp)
    have hrest : ∀ x ∈ rest, x.length % 2 = 0 := fun x hx => h x (by simp [hx])
    simp only [AudioBuffer.add_chunks, AudioBuffer.add_chunk, if_pos hd]
    rw [add_chunks_spec rest _ hrest]
    simp [List.append_assoc, Nat.add_assoc]

/-- add_chunk preserves the totalSamples invariant. -/
theorem inv_add_chunk {b b2 : AudioBuffer} {data : List Nat}
    (hb : b.inv) (h : b.add_chunk data = .ok b2) : b2.inv := by
  unfold AudioBuffer.add_chunk at h
  by_cases he : data.length % 2 = 0
  · rw [if_pos he] at h
    injection h with h
    subst h
    simp [AudioBuffer.inv] at hb ⊢
    omega
  · rw [if_neg he] at h
    exact absurd h (by simp)

/-- add_chunks preserves the totalSamples invariant. -/
theorem inv_add_chunks : ∀ (datas : List (List Nat)) {b b3 : AudioBuffer},
    b.inv → b.add_chunks datas = .ok b3 → b3.inv
  | [], b, b3, hb, h => by
    simp only [AudioBuffer.add_chunks] at h
    injection h with h
    exact h ▸ hb
  | d :: rest, b, b3, hb, h => by
    cases hc : b.add_chunk d with
    | ok b2 =>
      simp only [AudioBuffer.add_chunks, hc] at h
      exact inv_add_chunks rest (inv_add_chunk hb hc) h
    | error e =>
      simp only [AudioBuffer.add_chunks, hc] at h
      exact absurd h (by simp)

/-- Normalized samples of one int16 value stay in the closed unit interval. -/
theorem pcm16Sample_bounds {lo hi : Nat} (hlo : lo < 256) (hhi : hi < 256) :
    -1 ≤ pcm16Sample lo hi ∧ pcm16Sample lo hi ≤ 1 := by
  have hb : -32768 ≤ pcm16ToInt lo hi ∧ pcm16ToInt lo hi ≤ 32767 := by
    unfold pcm16ToInt
    by_cases h : lo + 256 * hi < 32768
    · rw [if_pos h]; omega
    · rw [if_neg h]; omega
  obtain ⟨h1, h2⟩ := hb
  unfold pcm16Sample
  constructor
  · rw [le_div_iff₀ (by norm_num : (0:ℚ) < 32768)]
    have hc : (-32768 : ℚ) ≤ (pcm16ToInt lo hi : ℚ) := by exact_mod_cast h1
    linarith
  · rw [div_le_one (by norm_num : (0:ℚ) < 32768)]
    have hc : (pcm16ToInt lo hi : ℚ) ≤ 32767 := by exact_mod_cast h2
    linarith

/-- Every sample decoded from in-range bytes is in the unit interval. -/
theorem decodePCM16_mem_range : ∀ (data : List Nat), (∀ x ∈ data, x < 256) →
    ∀ s ∈ decodePCM16 data, -1 ≤ s ∧ s ≤ 1
  | [], _, s, hs => by simp [decodePCM16] at hs
  | [x], _, s, hs => by simp [decodePCM16] at hs
  | lo :: hi :: rest, h, s, hs => by
    simp only [decodePCM16, List.mem_cons] at hs
    rcases hs with rfl | hs
    · exact pcm16Sample_bounds (h lo (by simp)) (h hi (by simp))
    · exact decodePCM16_mem_range rest (fun x hx => h x (by simp [hx])) s hs

/-- Once a load is in flight (model absent, loading flag set), further
entry sections are no-ops that just wait. -/
theorem runEntries_loading (t : Transcriber) (hm : t.model = none)
    (hl : t.loading = true) : ∀ n, runEntries t n = (t, 0) := by
  intro n
  induction n with
  | zero => rfl
  | succ n ih =>
    have he : load_model_entry t = (t, .alreadyLoading) := by
      simp [load_model_entry, hm, hl]
    simp [runEntries, he, ih]

/-- Concrete fixtures used by witnesses. -/
def engineFail : Engine := fun _ => .error "boom"

def engineHello : Engine := fun _ => .ok "hello"

def bufW : AudioBuffer := { sample_rate := 16000, chunks := [[0]], total_samples := 1 }

def sessW : Session := { buffer := bufW, is_recording := true }

def sessIdle : Session := { buffer := AudioBuffer.new, is_recording := false }

def loadedT : Transcriber :=
  { model := some (), loading := false, loadedEvt := true, load_error := none,
    loading_stage := "ready", loading_progress := 1, loading_message := "ready" }

/-! Claim theorems. -/

/-- Claim C1: if the transcription engine raises while handling an end
control message with a non-empty buffer, the session emits exactly one
error event carrying the failure message and no final event, the buffer is
cleared regardless of outcome (the success branch also clears it and emits
final), and a subsequent start control message is accepted as usual. -/
theorem C1_engine_failure_one_error (engine eng2 : Engine) (s : Session)
    (e txt : String)
    (hne : 0 < s.buffer.get_audio.length)
    (hfail : engine s.buffer.get_audio = .error e)
    (hok : eng2 s.buffer.get_audio = .ok txt) :
    sessionStep (some engine) s endMsg =
      .next { buffer := s.buffer.clear, is_recording := false } [Event.error e] ∧
    sessionStep (some eng2) s endMsg =
      .next { buffer := s.buffer.clear, is_recording := false } [Event.final txt] ∧
    sessionStep (some engine)
        { buffer := s.buffer.clear, is_recording := false } startMsg =
      .next { buffer := s.buffer.clear, is_recording := true } [] := by
  refine ⟨?_, ?_, ?_⟩ <;>
    simp [sessionStep, endMsg, startMsg, pyGetType, dictGet, optIsStr,
      AudioBuffer.clear, hne, hfail, hok]

/-- Witness for C1 at a concrete failing engine and a one-sample buffer. -/
theorem C1_engine_failure_one_error_witness :
    sessionStep (some engineFail) sessW endMsg =
      .next { buffer := bufW.clear, is_recording := false }
        [Event.error "boom"] ∧
    sessionStep (some engineHello) sessW endMsg =
      .next { buffer := bufW.clear, is_recording := false }
        [Event.final "hello"] ∧
    sessionStep (some engineFail)
        { buffer := bufW.clear, is_recording := false } startMsg =
      .next { buffer := bufW.clear, is_recording := true } [] :=
  C1_engine_failure_one_error engineFail engineHello sessW "boom" "hello"
    (by decide) rfl rfl

/-- Claim C2: a failing initialization is captured and stored as
load_error (the process does not crash: load_model_finish is total), the
loaded event is set so every present and future awaitReady caller resolves
and observes the stored error, and every session connecting afterwards
receives exactly one error event and does not enter the message loop, never
seeing ready. -/
theorem C2_load_error_isolated (t : Transcriber) (e : String) :
    (load_model_finish t (.error e)).load_error = some e ∧
    (load_model_finish t (.error e)).loadedEvt = true ∧
    (load_model_finish t (.error e)).model = none ∧
    awaitReadyResult (load_model_finish t (.error e)) = .error e ∧
    connectEvents (some (load_model_finish t (.error e))) =
      ([Event.error e], false) :=
  ⟨rfl, rfl, rfl, rfl, rfl⟩

/-- Claim C3: with N concurrent load_model callers (all entry sections run
before the in-flight load completes, as the single-threaded scheduler does
for simultaneously created tasks), the blocking initializer runs exactly
once; an entry on an already-loaded transcriber is a no-op; and after the
single load completes, every waiter observes the same outcome: ok on
success and the same stored error on failure. -/
theorem C3_single_flight (n : Nat) (hn : 1 ≤ n) (t : Transcriber)
    (hloaded : t.model.isSome = true) (e : String) :
    (runEntries Transcriber.init n).2 = 1 ∧
    load_model_entry t = ({ t with loadedEvt := true }, .done) ∧
    awaitReadyResult
      (load_model_finish (runEntries Transcriber.init n).1 (.ok ())) = .ok () ∧
    awaitReadyResult
      (load_model_finish (runEntries Transcriber.init n).1 (.error e)) =
      .error e := by
  obtain ⟨m, rfl⟩ : ∃ m, n = m + 1 := ⟨n - 1, by omega⟩
  have hstep : load_model_entry Transcriber.init =
      ({ Transcriber.init with loading := true, load_error := none },
        .runner) := by
    simp [load_model_entry, Transcriber.init]
  have hload := runEntries_loading
      { Transcriber.init with loading := true, load_error := none } rfl rfl m
  have hrun : runEntries Transcriber.init (m + 1) =
      ({ Transcriber.init with loading := true, load_error := none }, 1) := by
    simp [runEntries, hstep, hload]
  refine ⟨by rw [hrun], ?_, ?_, ?_⟩
  · simp [load_model_entry, hloaded]
  · rw [hrun]; rfl
  · rw [hrun]; rfl

/-- Witness for C3 with three concurrent callers. -/
theorem C3_single_flight_witness :
    (runEntries Transcriber.init 3).2 = 1 ∧
    load_model_entry loadedT = ({ loadedT with loadedEvt := true }, .done) ∧
    awaitReadyResult
      (load_model_finish (runEntries Transcriber.init 3).1 (.ok ())) = .ok () ∧
    awaitReadyResult
      (load_model_finish (runEntries Transcriber.init 3).1 (.error "boom")) =
      .error "boom" :=
  C3_single_flight 3 (by norm_num) loadedT rfl "boom"

/-- Claim C4, corrected, at the concrete input: the text frame whose JSON
is the number 42 is well-formed JSON that is not an object; data.get then
raises AttributeError, which is not caught by the JSONDecodeError handler,
so the generic handler emits an error event and the session is closed —
the frame is not ignored as the claim states. -/
theorem C4_counterexample :
    sessionStep none sessIdle (.text (some (JVal.num 42))) =
      .closed [Event.error "AttributeError: object has no attribute get"] ∧
    sessionStep none sessIdle (.text (some (JVal.num 42))) ≠
      .next sessIdle [] := by
  constructor
  · rfl
  · intro h
    simp [sessionStep, pyGetType] at h

/-- Claim C4 as amended: text frames that fail JSON parsing, and JSON
objects with an unrecognized type, are ignored — session state unchanged,
no event emitted, session continues; but a text frame of well-formed JSON
that is not an object raises AttributeError and tears the session down
with one error event. -/
theorem C4_amended_text_handling (tr : Option Engine) (s : Session)
    (fields : List (String × JVal)) (v : JVal)
    (hstart : optIsStr (dictGet fields "type") "start" = false)
    (hend : optIsStr (dictGet fields "type") "end" = false)
    (hnotobj : ∀ fs, v ≠ JVal.obj fs) :
    sessionStep tr s (.text none) = .next s [] ∧
    sessionStep tr s (.text (some (.obj fields))) = .next s [] ∧
    sessionStep tr s (.text (some v)) =
      .closed [Event.error "AttributeError: object has no attribute get"] := by
  refine ⟨rfl, ?_, ?_⟩
  · simp [sessionStep, pyGetType, hstart, hend]
  · have hv : pyGetType v =
        .error "AttributeError: object has no attribute get" := by
      cases v with
      | obj fs => exact absurd rfl (hnotobj fs)
      | null => rfl
      | bool b => rfl
      | num q => rfl
      | str s2 => rfl
      | arr items => rfl
    simp [sessionStep, hv]

/-- Witness for the amended C4 on an unknown control type and a JSON
number. -/
theorem C4_amended_text_handling_witness :
    sessionStep none sessIdle (.text none) = .next sessIdle [] ∧
    sessionStep none sessIdle
        (.text (some (.obj [("type", JVal.str "noop")]))) =
      .next sessIdle [] ∧
    sessionStep none sessIdle (.text (some (JVal.num 42))) =
      .closed [Event.error "AttributeError: object has no attribute get"] :=
  C4_amended_text_handling none sessIdle [("type", JVal.str "noop")]
    (JVal.num 42) rfl rfl (fun _ h => JVal.noConfusion h)

/-- Claim C5: broadcast never raises (the embedded function is total: every
send outcome is consumed by the try/except), and after the call a handle is
still registered exactly when it was registered before and its send
succeeded — all failed handles are removed, no successful one is. -/
theorem C5_broadcast_membership (clients : Finset Nat)
    (send : Nat → Except String Unit) (c : Nat) :
    c ∈ broadcast_loading_status clients send ↔
      c ∈ clients ∧ sendOk (send c) = true := by
  unfold broadcast_loading_status
  by_cases h : clients = ∅
  · subst h
    simp
  · rw [if_neg h]
    simp only [Finset.mem_sdiff, Finset.mem_filter]
    constructor
    · rintro ⟨hc, hn⟩
      refine ⟨hc, ?_⟩
      by_contra hf
      exact hn ⟨hc, by simpa using hf⟩
    · rintro ⟨hc, hok⟩
      exact ⟨hc, fun hmem => by simp [hok] at hmem⟩

/-- Claim C6: an end control message with an empty buffer emits a final
event with empty text and no error; binary chunks received while idle are
ignored, so start immediately followed by end also yields final with empty
text. -/
theorem C6_empty_end_final_empty (tr : Option Engine) (s sE : Session)
    (d : List Nat) (hempty : sE.buffer.chunks = [])
    (hidle : s.is_recording = false) :
    sessionStep tr sE endMsg =
      .next { buffer := sE.buffer.clear, is_recording := false }
        [Event.final ""] ∧
    sessionStep tr s (.binary d) = .next s [] ∧
    sessionStep tr s startMsg =
      .next { buffer := s.buffer.clear, is_recording := true } [] ∧
    sessionStep tr { buffer := s.buffer.clear, is_recording := true } endMsg =
      .next { buffer := s.buffer.clear, is_recording := false }
        [Event.final ""] := by
  refine ⟨?_, ?_, ?_, ?_⟩ <;>
    simp [sessionStep, endMsg, startMsg, pyGetType, dictGet, optIsStr,
      AudioBuffer.get_audio, AudioBuffer.clear, hempty, hidle]

/-- Witness for C6 on a fresh idle session. -/
theorem C6_empty_end_final_empty_witness :
    sessionStep none sessIdle endMsg =
      .next { buffer := AudioBuffer.new.clear, is_recording := false }
        [Event.final ""] ∧
    sessionStep none sessIdle (.binary [7]) = .next sessIdle [] ∧
    sessionStep none sessIdle startMsg =
      .next { buffer := AudioBuffer.new.clear, is_recording := true } [] ∧
    sessionStep none
        { buffer := AudioBuffer.new.clear, is_recording := true } endMsg =
      .next { buffer := AudioBuffer.new.clear, is_recording := false }
        [Event.final ""] :=
  C6_empty_end_final_empty none sessIdle sessIdle [7] rfl rfl

/-- Claim C7: materializing after any sequence of even-length chunk
additions yields the concatenation of the decoded chunks in arrival order,
and a fresh or cleared buffer materializes to the empty sequence. -/
theorem C7_materialize_concat (datas : List (List Nat))
    (heven : ∀ d ∈ datas, d.length % 2 = 0) :
    ∃ b : AudioBuffer, AudioBuffer.new.add_chunks datas = .ok b ∧
      b.get_audio = (datas.map decodePCM16).flatten ∧
      AudioBuffer.new.get_audio = [] ∧
      b.clear.get_audio = [] := by
  refine ⟨_, add_chunks_spec datas AudioBuffer.new heven, ?_, rfl, rfl⟩
  rw [AudioBuffer.get_audio_eq_flatten]
  simp [AudioBuffer.new]

/-- Witness for C7 on two concrete chunks. -/
theorem C7_materialize_concat_witness :
    ∃ b : AudioBuffer, AudioBuffer.new.add_chunks [[0, 0], [255, 127]] = .ok b ∧
      b.get_audio = ([[0, 0], [255, 127]].map decodePCM16).flatten ∧
      AudioBuffer.new.get_audio = [] ∧
      b.clear.get_audio = [] :=
  C7_materialize_concat [[0, 0], [255, 127]] (by decide)

/-- Claim C8: totalSamples equals the sum of the chunk lengths (hence is
never negative, being a Nat) for the fresh buffer, and the invariant is
preserved by add_chunk, by clear, and by any sequence of additions. -/
theorem C8_total_samples_inv (b b2 b3 : AudioBuffer) (data : List Nat)
    (datas : List (List Nat)) (hb : b.inv)
    (h2 : b.add_chunk data = .ok b2) (h3 : b.add_chunks datas = .ok b3) :
    AudioBuffer.new.inv ∧ b2.inv ∧ b.clear.inv ∧ b3.inv :=
  ⟨rfl, inv_add_chunk hb h2, rfl, inv_add_chunks datas hb h3⟩

/-- Witness for C8 on concrete additions to a fresh buffer. -/
theorem C8_total_samples_inv_witness :
    AudioBuffer.new.inv ∧
    ({ sample_rate := 16000, chunks := [[pcm16Sample 1 2]],
       total_samples := 1 } : AudioBuffer).inv ∧
    AudioBuffer.new.clear.inv ∧
    ({ sample_rate := 16000, chunks := [[pcm16Sample 3 4]],
       total_samples := 1 } : AudioBuffer).inv :=
  C8_total_samples_inv AudioBuffer.new _ _ [1, 2] [[3, 4]] rfl rfl rfl

/-- Claim C9: add_chunk decodes little-endian int16 pairs and divides by
32768, so every decoded sample from in-range bytes lies in the closed
interval from -1 to 1, with bytes 0,128 (the value -32768) mapping exactly
to -1 and bytes 255,127 (the value 32767) to 32767 / 32768. -/
theorem C9_sample_range (data : List Nat) (hb : ∀ x ∈ data, x < 256) :
    (∀ s ∈ decodePCM16 data, -1 ≤ s ∧ s ≤ 1) ∧
    pcm16Sample 0 128 = -1 ∧
    pcm16Sample 255 127 = 32767 / 32768 := by
  refine ⟨decodePCM16_mem_range data hb, ?_, ?_⟩
  · norm_num [pcm16Sample, pcm16ToInt]
  · norm_num [pcm16Sample, pcm16ToInt]

/-- Witness for C9 on the two extreme samples. -/
theorem C9_sample_range_witness :
    (∀ s ∈ decodePCM16 [0, 128, 255, 127], -1 ≤ s ∧ s ≤ 1) ∧
    pcm16Sample 0 128 = -1 ∧
    pcm16Sample 255 127 = 32767 / 32768 :=
  C9_sample_range [0, 128, 255, 127] (by decide)

/-- Claim C10: add_chunk raises exactly on odd byte length (np.frombuffer
with dtype int16); the binary branch of the receive loop does not guard the
call, so one odd-length frame received while recording escapes to the
generic handler and closes the session with one error event; even-length
input always decodes successfully. -/
theorem C10_odd_length_teardown (tr : Option Engine) (s : Session)
    (b : AudioBuffer) (data even_data : List Nat)
    (hrec : s.is_recording = true) (hodd : data.length % 2 = 1)
    (heven : even_data.length % 2 = 0) :
    b.add_chunk data =
      .error "ValueError: buffer size must be a multiple of element size" ∧
    sessionStep tr s (.binary data) =
      .closed
        [Event.error "ValueError: buffer size must be a multiple of element size"] ∧
    (∃ b2, b.add_chunk even_data = .ok b2) := by
  have hne : ¬ data.length % 2 = 0 := by omega
  refine ⟨?_, ?_, ?_⟩
  · simp [AudioBuffer.add_chunk, hne]
  · simp [sessionStep, AudioBuffer.add_chunk, hrec, hne]
  · refine ⟨{ b with chunks := b.chunks ++ [decodePCM16 even_data], total_samples := b.total_samples + (decodePCM16 even_data).length }, ?_⟩
    simp [AudioBuffer.add_chunk, heven]

/-- Witness for C10 on a one-byte frame while recording. -/
theorem C10_odd_length_teardown_witness :
    AudioBuffer.new.add_chunk [0] =
      .error "ValueError: buffer size must be a multiple of element size" ∧
    sessionStep none sessW (.binary [0]) =
      .closed
        [Event.error "ValueError: buffer size must be a multiple of element size"] ∧
    (∃ b2, AudioBuffer.new.add_chunk [0, 0] = .ok b2) :=
  C10_odd_length_teardown none sessW AudioBuffer.new [0] [0, 0] rfl rfl rfl

end VoiceFlow
